import Mathlib

/-!
Shallow embedding of the condition-matching and trade-execution core of the
`condition-task-list-trader` repository (files `condition_parser.py`,
`conditions_matcher.py`, `trade_executor.py`, `broker_integrations.py`).

Python floats are modelled as exact rationals (ℚ); Python `None`-able slots as
`Option`; the mutable object state of `ConditionsMatcher` / `TradeExecutor` is
threaded explicitly.  Effects that only print are dropped; the two observer
notifications of the matcher (state-changed and trade-trigger) are modelled as
the Boolean fields `updated` and `trigger` of a pass result: the source calls
`_notify_update` exactly when `conditions_updated` is true and `_execute_trade`
(which invokes every trade-executed callback) exactly when the trigger
condition holds.
-/

namespace Trader

/-- `Condition` dataclass of `condition_parser.py` (lines 5-13): `completed`
defaults to `False`, `current_value` to `None`. -/
structure Condition where
  task_id : String
  description : String
  indicator : String
  operator : String
  value : ℚ
  completed : Bool := false
  current_value : Option ℚ := none
  deriving Repr, DecidableEq

/-- `MarketData` dataclass of `conditions_matcher.py` (lines 8-14); the
`indicators` dict is an association list with the dict's key-uniqueness left
implicit (lookup takes the first binding, as a dict with unique keys would). -/
structure MarketData where
  symbol : String
  price : ℚ
  volume : ℚ
  indicators : List (String × ℚ) := []
  timestamp : ℚ := 0
  deriving Repr, DecidableEq

/-- Indicator lookup of `_evaluate_condition` (lines 105-113): `'Price'` reads
the price, `'Volume'` the volume, otherwise the indicators dict; `none` models
the `return False  # Indicator not available` branch. -/
def lookupIndicator (c : Condition) (d : MarketData) : Option ℚ :=
  if c.indicator = "Price" then some d.price
  else if c.indicator = "Volume" then some d.volume
  else d.indicators.lookup c.indicator

/-- Comparator dispatch of `_evaluate_condition` (lines 118-131): the four
operators compare numerically, anything else falls to the `else: return False`
branch (the surrounding `try/except` also yields `False`, and none of these
comparisons can raise). -/
def applyOperator (op : String) (v t : ℚ) : Bool :=
  if op = "<" then decide (v < t)
  else if op = ">" then decide (v > t)
  else if op = "<=" then decide (v ≤ t)
  else if op = ">=" then decide (v ≥ t)
  else false

/-- `_evaluate_condition` (lines 101-131): returns the condition after the
`condition.current_value = current_value` write together with the returned
Boolean.  When the indicator is absent the early `return False` fires before
`current_value` is assigned, so the condition is returned untouched. -/
def evaluateCondition (c : Condition) (d : MarketData) : Condition × Bool :=
  match lookupIndicator c d with
  | none => (c, false)
  | some v => ({ c with current_value := some v }, applyOperator c.operator v c.value)

/-- One loop iteration of `_evaluate_conditions_for_symbol` (lines 79-88) for a
single condition: `condition.completed = self._evaluate_condition(...)`.
`_condition_applies_to_symbol` is constantly `True` (line 99), so every
condition is evaluated. -/
def evaluateStep (c : Condition) (d : MarketData) : Condition :=
  let r := evaluateCondition c d
  { r.1 with completed := r.2 }

/-- The loop of `_evaluate_conditions_for_symbol` (lines 76-88): returns the
rewritten condition list, the `conditions_updated` flag (some condition's
`completed` changed) and the `all_completed` flag (every evaluated condition
completed; `True` on the empty list, as the Python initialisation). -/
def evaluateLoop (d : MarketData) : List Condition → List Condition × Bool × Bool
  | [] => ([], false, true)
  | c :: rest =>
    let c2 := evaluateStep c d
    let r := evaluateLoop d rest
    (c2 :: r.1, ((c2.completed != c.completed) || r.2.1), (c2.completed && r.2.2))

/-- Result of one evaluation pass: the new condition list, whether
`_notify_update` was called (state-changed notification, carrying the full
condition list), and whether `_execute_trade` was called (trigger notification
to every trade-executed callback). -/
structure PassResult where
  conditions : List Condition
  updated : Bool
  trigger : Bool
  deriving Repr, DecidableEq

/-- `_evaluate_conditions_for_symbol` (lines 74-95): after the loop,
`_notify_update` runs iff `conditions_updated`, and `_execute_trade` runs iff
`all_completed and self.conditions` — the truthiness test on the list is
non-emptiness. -/
def evaluatePass (cs : List Condition) (d : MarketData) : PassResult :=
  let r := evaluateLoop d cs
  ⟨r.1, r.2.1, (r.2.2 && !cs.isEmpty)⟩

/-- A sequence of evaluation passes (the matching loop draining one queued
snapshot after another, lines 57-67), threading the condition list and
counting how many passes emitted the trigger notification. -/
def runSnapshots (cs : List Condition) : List MarketData → List Condition × Nat
  | [] => (cs, 0)
  | d :: ds =>
    let r := evaluatePass cs d
    let rest := runSnapshots r.conditions ds
    (rest.1, (if r.trigger then 1 else 0) + rest.2)

/-- `add_conditions` (lines 26-29): `self.conditions.extend(conditions)` —
a plain append; the subsequent `_notify_update` does not touch the fields. -/
def add_conditions (old new : List Condition) : List Condition :=
  old ++ new

/-- `reset_conditions` (lines 167-172): sets `completed = False` and
`current_value = None` on every condition. -/
def reset_conditions (cs : List Condition) : List Condition :=
  cs.map fun c => { c with completed := false, current_value := none }

/-! ### Trade executor (`trade_executor.py`) -/

/-- `TradeOrder` dataclass (lines 8-15). -/
structure TradeOrder where
  symbol : String
  order_type : String
  quantity : ℤ
  price : Option ℚ := none
  stop_price : Option ℚ := none
  time_in_force : String := "IOC"
  deriving Repr, DecidableEq

/-- `TradeExecution` dataclass (lines 17-24).  Its fields are exactly `order`,
`executed_price`, `executed_quantity`, `timestamp`, `execution_id` and
`commission` — the record carries no simulated/real marker.  `executed_quantity`
is annotated `int` but `BinanceBroker.place_order` assigns it a `float`
(`broker_integrations.py` line 304), so it is modelled as ℚ; `execution_id` is
annotated `str` but may receive `None`-able broker ids, so it is modelled as
`Option String` (`none` = Python `None`). -/
structure TradeExecution where
  order : TradeOrder
  executed_price : ℚ
  executed_quantity : ℚ
  timestamp : ℚ
  execution_id : Option String
  commission : ℚ := 0
  deriving Repr, DecidableEq

/-- `RiskParameters` dataclass (lines 26-32) with its defaults. -/
structure RiskParameters where
  max_position_size : ℚ := 10000
  max_daily_loss : ℚ := 1000
  stop_loss_percentage : ℚ := 2/100
  take_profit_percentage : ℚ := 5/100
  max_risk_per_trade : ℚ := 1/100
  deriving Repr, DecidableEq

/-- The mutable state of a `TradeExecutor` instance that the embedded methods
read or write (lines 40-49); broker connections are captured by the
`using_real_broker` flag. -/
structure ExecutorState where
  portfolio_value : ℚ := 100000
  risk_params : RiskParameters := {}
  executed_trades : List TradeExecution := []
  daily_pnl : ℚ := 0
  using_real_broker : Bool := false
  deriving Repr, DecidableEq

/-- `_check_risk_limits` (lines 145-160): reject when
`daily_pnl < -max_daily_loss` (strict, line 149) or when
`price * 100 > max_position_size` (line 155-156, "assuming 100 shares"). -/
def check_risk_limits (s : ExecutorState) (d : MarketData) : Bool :=
  if s.daily_pnl < -s.risk_params.max_daily_loss then false
  else if d.price * 100 > s.risk_params.max_position_size then false
  else true

/-- Python `int(x)` on a real number: truncation toward zero. -/
def intTrunc (q : ℚ) : ℤ :=
  if q < 0 then -⌊-q⌋ else ⌊q⌋

/-- `_calculate_position_size` (lines 162-178):
`int((portfolio_value * max_risk_per_trade) / (price * stop_loss_percentage))`.
Exact rationals replace Python doubles; `int(...)` truncates toward zero. -/
def calculate_position_size (s : ExecutorState) (d : MarketData) : ℤ :=
  let max_risk_amount := s.portfolio_value * s.risk_params.max_risk_per_trade
  let stop_loss_amount := d.price * s.risk_params.stop_loss_percentage
  intTrunc (max_risk_amount / stop_loss_amount)

/-- `_create_order` (lines 180-191): a market IOC order at the current price. -/
def create_order (symbol : String) (d : MarketData) (quantity : ℤ) : TradeOrder :=
  { symbol := symbol, order_type := "market", quantity := quantity,
    price := some d.price, time_in_force := "IOC" }

/-- `_simulate_execution` (lines 193-220).  The random slippage drawn from
`uniform(-0.0005, 0.0005)` and the wall-clock reading are passed in as the
parameters `slippage` and `nowMs`/`now`; nothing in the body can raise, so the
`except: return None` branch is dead and the result is always one record. -/
def simulate_execution (order : TradeOrder) (d : MarketData)
    (slippage : ℚ) (nowMs : ℕ) (now : ℚ) : TradeExecution :=
  let executed_price := d.price * (1 + slippage)
  let trade_value := executed_price * (order.quantity : ℚ)
  { order := order
    executed_price := executed_price
    executed_quantity := (order.quantity : ℚ)
    timestamp := now
    execution_id := some ("EXEC_" ++ toString nowMs)
    commission := trade_value * (1/1000) }

/-- Outcome of the `broker_manager.execute_trade(order)` call inside
`_execute_real_broker` (lines 101-111): the call either raises (and the code
falls back to `_simulate_execution`) or returns an optional execution. -/
inductive BrokerOutcome where
  | raised : BrokerOutcome
  | returned : Option TradeExecution → BrokerOutcome
  deriving Repr, DecidableEq

/-- `_execute_real_broker` (lines 101-111): returns the broker's execution, or
falls back to simulation when the broker call raises. -/
def execute_real_broker (order : TradeOrder) (d : MarketData)
    (broker : BrokerOutcome) (slippage : ℚ) (nowMs : ℕ) (now : ℚ) :
    Option TradeExecution :=
  match broker with
  | .returned r => r
  | .raised => some (simulate_execution order d slippage nowMs now)

/-- `execute_trade` (lines 67-99): risk check, sizing, order creation,
dispatch (real broker or simulation), and — when an execution came back —
append to the `executed_trades` ledger.  Returns the Python return value and
the updated executor state (`_log_execution` and `_set_broker_risk_orders`
only print / talk to the broker). -/
def execute_trade (s : ExecutorState) (symbol : String) (d : MarketData)
    (broker : BrokerOutcome) (slippage : ℚ) (nowMs : ℕ) (now : ℚ) :
    Option TradeExecution × ExecutorState :=
  if !check_risk_limits s d then (none, s)
  else
    let position_size := calculate_position_size s d
    if position_size ≤ 0 then (none, s)
    else
      let order := create_order symbol d position_size
      let execution :=
        if s.using_real_broker then
          execute_real_broker order d broker slippage nowMs now
        else
          some (simulate_execution order d slippage nowMs now)
      match execution with
      | some ex => (some ex, { s with executed_trades := s.executed_trades ++ [ex] })
      | none => (none, s)

/-- Response data of a successful `create_order` call in
`BinanceBroker.place_order` (`broker_integrations.py` lines 286-312), as read
by the code: the `price`, `executedQty`, `transactTime`, `orderId` and
`commission` entries (restricted to responses that do carry a `price` key; the
`commission` field already folds in the `.get('commission', 0.0)` default). -/
structure BinanceResponse where
  price : ℚ
  executedQty : ℚ
  transactTime : ℤ
  orderId : Option String
  commission : ℚ
  deriving Repr, DecidableEq

/-- The `TradeExecution` that `BinanceBroker.place_order` builds from a
successful API response (lines 301-308). -/
def binance_place_order (order : TradeOrder) (r : BinanceResponse) : TradeExecution :=
  { order := order
    executed_price := r.price
    executed_quantity := r.executedQty
    timestamp := (r.transactTime : ℚ) / 1000
    execution_id := r.orderId
    commission := r.commission }

/-- The spec's distinguishability property for C6, stated over the embedded
record type: some Boolean field/function of a `TradeExecution` is `true` on
every record `_simulate_execution` can produce and `false` on every record a
real broker (`BinanceBroker.place_order`) can produce. -/
def SimulatedDistinguishable : Prop :=
  ∃ f : TradeExecution → Bool,
    (∀ order d slippage nowMs now,
      f (simulate_execution order d slippage nowMs now) = true) ∧
    (∀ order r, f (binance_place_order order r) = false)

end Trader

namespace Trader

/-! ### Helper lemmas about the evaluation loop -/

theorem evaluateLoop_conditions (d : MarketData) (cs : List Condition) :
    (evaluateLoop d cs).1 = cs.map (fun c => evaluateStep c d) := by
  induction cs with
  | nil => rfl
  | cons c rest ih => simp [evaluateLoop, ih]

theorem evaluateLoop_updated_iff (d : MarketData) (cs : List Condition) :
    (evaluateLoop d cs).2.1 = true ↔
      ∃ c ∈ cs, (evaluateStep c d).completed ≠ c.completed := by
  induction cs with
  | nil => simp [evaluateLoop]
  | cons c rest ih => simp [evaluateLoop, ih, bne_iff_ne]

/-! ### Claims about the matcher -/

/-- C1: the spec demands edge-triggered firing (a set that becomes fully
satisfied on snapshot N and stays satisfied on N+1..N+k fires exactly once).
The code is level-triggered: `_evaluate_conditions_for_symbol` calls
`_execute_trade` on every pass on which all conditions are completed, with no
"already fired" tracking.  On the failing input — one condition `Price > 100`
and two consecutive snapshots at price 150 — the embedded code emits the
trigger notification twice, where the claim requires exactly once. -/
theorem C1_trigger_fires_on_every_satisfied_pass :
    (runSnapshots
      [{ task_id := "task_1", description := "price above 100",
         indicator := "Price", operator := ">", value := 100 }]
      [{ symbol := "AAPL", price := 150, volume := 0 },
       { symbol := "AAPL", price := 150, volume := 0 }]).2 = 2 := by decide

/-- C2: an evaluation pass over an empty condition list never emits the
trigger notification (`all_completed and self.conditions` is falsy on the
empty list), for every snapshot. -/
theorem C2_empty_set_never_fires :
    ∀ d : MarketData, (evaluatePass [] d).trigger = false :=
  fun _ => rfl

/-- C5: a condition whose indicator is neither "Price" nor "Volume" nor a key
of the snapshot's indicator map keeps its `current_value` unchanged and has
`completed = false` after the pass, whatever its prior state. -/
theorem C5_missing_indicator_never_satisfies :
    ∀ (c : Condition) (d : MarketData),
      c.indicator ≠ "Price" → c.indicator ≠ "Volume" →
      d.indicators.lookup c.indicator = none →
      (evaluateStep c d).current_value = c.current_value ∧
      (evaluateStep c d).completed = false := by
  intro c d h1 h2 h3
  simp [evaluateStep, evaluateCondition, lookupIndicator, h1, h2, h3]

/-- Witness for C5: a previously satisfied RSI condition evaluated against a
snapshot with no RSI entry keeps its stale `current_value` and is unsatisfied. -/
theorem C5_witness :
    (evaluateStep
      { task_id := "t1", description := "rsi", indicator := "RSI",
        operator := "<", value := 30, completed := true, current_value := some 25 }
      { symbol := "AAPL", price := 150, volume := 0 }).current_value =
      ({ task_id := "t1", description := "rsi", indicator := "RSI",
         operator := "<", value := 30, completed := true,
         current_value := some 25 } : Condition).current_value ∧
    (evaluateStep
      { task_id := "t1", description := "rsi", indicator := "RSI",
        operator := "<", value := 30, completed := true, current_value := some 25 }
      { symbol := "AAPL", price := 150, volume := 0 }).completed = false :=
  C5_missing_indicator_never_satisfies _ _ (by decide) (by decide) (by decide)

/-- C8: at the boundary, `>=` with threshold 30 against an observed value of
exactly 30 is satisfied while `>` is not; and each of the four operators
evaluates to the standard numeric comparison of the observed value against the
threshold. -/
theorem C8_comparator_boundary :
    ((evaluateStep
        { task_id := "t1", description := "p", indicator := "Price",
          operator := ">=", value := 30 }
        { symbol := "S", price := 30, volume := 0 }).completed = true) ∧
    ((evaluateStep
        { task_id := "t1", description := "p", indicator := "Price",
          operator := ">", value := 30 }
        { symbol := "S", price := 30, volume := 0 }).completed = false) ∧
    (∀ v t : ℚ, applyOperator "<" v t = decide (v < t)) ∧
    (∀ v t : ℚ, applyOperator ">" v t = decide (v > t)) ∧
    (∀ v t : ℚ, applyOperator "<=" v t = decide (v ≤ t)) ∧
    (∀ v t : ℚ, applyOperator ">=" v t = decide (v ≥ t)) :=
  ⟨by decide, by decide, fun _ _ => rfl, fun _ _ => rfl, fun _ _ => rfl,
    fun _ _ => rfl⟩

/-- C9: the state-changed notification (`_notify_update`, which passes the
full condition list to every update callback) is emitted on a pass if and only
if some condition's `completed` flag changed on that pass; the pass rewrites
the conditions elementwise by `evaluateStep`. -/
theorem C9_state_changed_iff_flag_flipped :
    ∀ (cs : List Condition) (d : MarketData),
      ((evaluatePass cs d).updated = true ↔
        ∃ c ∈ cs, (evaluateStep c d).completed ≠ c.completed) ∧
      (evaluatePass cs d).conditions = cs.map (fun c => evaluateStep c d) := by
  intro cs d
  exact ⟨evaluateLoop_updated_iff d cs, evaluateLoop_conditions d cs⟩

/-- C10: an evaluation step writes only `completed` and `current_value`:
`task_id`, `description`, `indicator`, `operator` and the threshold `value`
are unchanged (the snapshot, passed by value to a pure function, is never
written at all); and an operator outside {<, >, <=, >=} makes the condition
unsatisfied (the `else`/`except` branches return `False`) instead of raising. -/
theorem C10_evaluation_frame :
    ∀ (c : Condition) (d : MarketData),
      (evaluateStep c d).task_id = c.task_id ∧
      (evaluateStep c d).description = c.description ∧
      (evaluateStep c d).indicator = c.indicator ∧
      (evaluateStep c d).operator = c.operator ∧
      (evaluateStep c d).value = c.value ∧
      (c.operator ∉ (["<", ">", "<=", ">="] : List String) →
        (evaluateStep c d).completed = false) := by
  intro c d
  unfold evaluateStep evaluateCondition
  cases h : lookupIndicator c d with
  | none => simp
  | some v =>
    refine ⟨rfl, rfl, rfl, rfl, rfl, ?_⟩
    intro hop
    simp only [List.mem_cons, List.not_mem_nil, or_false, not_or] at hop
    simp [applyOperator, hop.1, hop.2.1, hop.2.2.1, hop.2.2.2]

/-- Witness for C10: a condition with the unknown operator `!=` evaluates to
unsatisfied. -/
theorem C10_witness :
    (evaluateStep
      { task_id := "t1", description := "p", indicator := "Price",
        operator := "!=", value := 30, completed := true }
      { symbol := "S", price := 30, volume := 0 }).completed = false :=
  (C10_evaluation_frame _ _).2.2.2.2.2 (by decide)

/-! ### Claims about the executor -/

/-- C3 counterexample: the claim requires rejection when daily P&L is `≤`
`-max_daily_loss`, but `_check_risk_limits` uses the strict `<`.  With
`daily_pnl = -1000` (exactly `-max_daily_loss`) and price 100, `execute_trade`
returns an execution and grows the ledger, refuting the claim as stated. -/
theorem C3_counterexample :
    ({ daily_pnl := -1000 } : ExecutorState).daily_pnl ≤
      -({ daily_pnl := -1000 } : ExecutorState).risk_params.max_daily_loss ∧
    (execute_trade { daily_pnl := -1000 } "AAPL"
        { symbol := "AAPL", price := 100, volume := 0 }
        (BrokerOutcome.returned none) 0 0 0).1 ≠ none ∧
    (execute_trade { daily_pnl := -1000 } "AAPL"
        { symbol := "AAPL", price := 100, volume := 0 }
        (BrokerOutcome.returned none) 0 0 0).2.executed_trades ≠
      ({ daily_pnl := -1000 } : ExecutorState).executed_trades := by
  refine ⟨by norm_num, ?_, ?_⟩ <;>
    (norm_num [execute_trade, check_risk_limits, calculate_position_size,
      intTrunc, create_order, simulate_execution]
     try simp)

/-- C3 (amended): if the running daily P&L is strictly below
`-max_daily_loss`, or the estimated order notional (`price × 100`) exceeds
`max_position_size`, then `execute_trade` returns no execution and leaves the
executor state — in particular the executed-trades ledger — unchanged. -/
theorem C3_risk_rejection :
    ∀ (s : ExecutorState) (symbol : String) (d : MarketData)
      (broker : BrokerOutcome) (slippage : ℚ) (nowMs : ℕ) (now : ℚ),
      (s.daily_pnl < -s.risk_params.max_daily_loss ∨
        d.price * 100 > s.risk_params.max_position_size) →
      execute_trade s symbol d broker slippage nowMs now = (none, s) := by
  intro s symbol d broker slippage nowMs now h
  have hc : check_risk_limits s d = false := by
    rcases h with h | h <;> simp [check_risk_limits, h]
  simp [execute_trade, hc]

/-- Witness for C3: the spec's example state (`daily_pnl = -1200`,
`max_daily_loss = 1000`) is rejected with no ledger change. -/
theorem C3_witness :
    execute_trade { daily_pnl := -1200 } "AAPL"
        { symbol := "AAPL", price := 100, volume := 0 }
        (BrokerOutcome.returned none) 0 0 0 =
      (none, { daily_pnl := -1200 }) :=
  C3_risk_rejection _ "AAPL" _ _ 0 0 0 (Or.inl (by norm_num))

/-- C4 counterexample: the claim equates the computed share count with the
floor of `(portfolio_value × max_risk_per_trade) / (price × stop_loss_pct)`.
Python's `int()` truncates toward zero instead: at price −150 (which passes
`_check_risk_limits`, since −15000 ≤ 10000) the quotient is −1000/3, the code
computes −333, and the claimed floor is −334. -/
theorem C4_counterexample :
    check_risk_limits {} { symbol := "S", price := -150, volume := 0 } = true ∧
    calculate_position_size {} { symbol := "S", price := -150, volume := 0 } = -333 ∧
    ⌊({} : ExecutorState).portfolio_value *
        ({} : ExecutorState).risk_params.max_risk_per_trade /
        (({ symbol := "S", price := -150, volume := 0 } : MarketData).price *
          ({} : ExecutorState).risk_params.stop_loss_percentage)⌋ = -334 ∧
    calculate_position_size {} { symbol := "S", price := -150, volume := 0 } ≠
      ⌊({} : ExecutorState).portfolio_value *
          ({} : ExecutorState).risk_params.max_risk_per_trade /
          (({ symbol := "S", price := -150, volume := 0 } : MarketData).price *
            ({} : ExecutorState).risk_params.stop_loss_percentage)⌋ := by
  refine ⟨?_, ?_, ?_, ?_⟩ <;>
    norm_num [check_risk_limits, calculate_position_size, intTrunc]

/-- C4 (amended): the computed share count is the truncation toward zero of
`(portfolio_value × max_risk_per_trade) / (price × stop_loss_pct)`, which
equals the floor whenever the quotient is nonnegative (in particular for every
positive price under the positive default risk parameters); whenever the count
is ≤ 0, `execute_trade` rejects (returns no execution); and the spec's example
(portfolio 100000, risk 1%, stop-loss 2%, price 150) yields 333 shares. -/
theorem C4_position_sizing :
    (∀ (s : ExecutorState) (d : MarketData),
      0 ≤ s.portfolio_value * s.risk_params.max_risk_per_trade /
          (d.price * s.risk_params.stop_loss_percentage) →
      calculate_position_size s d =
        ⌊s.portfolio_value * s.risk_params.max_risk_per_trade /
          (d.price * s.risk_params.stop_loss_percentage)⌋) ∧
    (∀ (s : ExecutorState) (symbol : String) (d : MarketData)
      (broker : BrokerOutcome) (slippage : ℚ) (nowMs : ℕ) (now : ℚ),
      calculate_position_size s d ≤ 0 →
      (execute_trade s symbol d broker slippage nowMs now).1 = none) ∧
    calculate_position_size {} { symbol := "S", price := 150, volume := 0 } = 333 := by
  refine ⟨?_, ?_, ?_⟩
  · intro s d h
    simp [calculate_position_size, intTrunc, not_lt.mpr h]
  · intro s symbol d broker slippage nowMs now hle
    cases hc : check_risk_limits s d with
    | false => simp [execute_trade, hc]
    | true => simp [execute_trade, hc, hle]
  · norm_num [calculate_position_size, intTrunc]

/-- Witness for C4: the nonnegative-quotient case at the spec's example input
(price 150, quotient 1000/3 ≥ 0) and the reject case at price −150 (count
−333 ≤ 0). -/
theorem C4_witness :
    calculate_position_size {} { symbol := "S", price := 150, volume := 0 } =
      ⌊({} : ExecutorState).portfolio_value *
          ({} : ExecutorState).risk_params.max_risk_per_trade /
          (({ symbol := "S", price := 150, volume := 0 } : MarketData).price *
            ({} : ExecutorState).risk_params.stop_loss_percentage)⌋ ∧
    (execute_trade {} "S" { symbol := "S", price := -150, volume := 0 }
        (BrokerOutcome.returned none) 0 0 0).1 = none :=
  ⟨C4_position_sizing.1 {} _ (by norm_num),
    C4_position_sizing.2.1 {} "S" _ _ 0 0 0
      (by norm_num [calculate_position_size, intTrunc])⟩

/-- C6 counterexample: `TradeExecution` (the record built by
`_simulate_execution` and by the broker integrations) carries no
`is_simulated` flag, and no Boolean function of the record can separate
simulated from real executions: a simulated fill (price 150, 333 shares, zero
slippage, clock 0) is field-for-field identical to a record
`BinanceBroker.place_order` builds from a possible API response. -/
theorem C6_counterexample : ¬ SimulatedDistinguishable := by
  rintro ⟨f, hsim, hreal⟩
  have hrec :
      simulate_execution
        { symbol := "AAPL", order_type := "market", quantity := 333,
          price := some 150, stop_price := none, time_in_force := "IOC" }
        { symbol := "AAPL", price := 150, volume := 0 } 0 0 0 =
      binance_place_order
        { symbol := "AAPL", order_type := "market", quantity := 333,
          price := some 150, stop_price := none, time_in_force := "IOC" }
        { price := 150, executedQty := 333, transactTime := 0,
          orderId := some "EXEC_0", commission := 4995/100 } := by
    norm_num [simulate_execution, binance_place_order]
    decide
  have h1 := hsim
    { symbol := "AAPL", order_type := "market", quantity := 333,
      price := some 150, stop_price := none, time_in_force := "IOC" }
    { symbol := "AAPL", price := 150, volume := 0 } 0 0 0
  have h2 := hreal
    { symbol := "AAPL", order_type := "market", quantity := 333,
      price := some 150, stop_price := none, time_in_force := "IOC" }
    { price := 150, executedQty := 333, transactTime := 0,
      orderId := some "EXEC_0", commission := 4995/100 }
  rw [hrec] at h1
  rw [h1] at h2
  exact absurd h2 (by simp)

/-- C6 (amended): whenever no real broker is used (or the real-broker call
raises and the code falls back), a trigger that passes the risk and sizing
checks produces exactly one simulated `TradeExecution`, appended to the ledger,
whose commission is 0.001 × executed_price × executed_quantity, whose
executed quantity equals the order quantity, and whose execution id is
non-null; the record itself has no simulated/real marker field. -/
theorem C6_simulated_fill :
    ∀ (s : ExecutorState) (symbol : String) (d : MarketData)
      (broker : BrokerOutcome) (slippage : ℚ) (nowMs : ℕ) (now : ℚ),
      (s.using_real_broker = false ∨ broker = BrokerOutcome.raised) →
      check_risk_limits s d = true →
      0 < calculate_position_size s d →
      ∃ e : TradeExecution,
        execute_trade s symbol d broker slippage nowMs now =
          (some e, { s with executed_trades := s.executed_trades ++ [e] }) ∧
        e = simulate_execution
              (create_order symbol d (calculate_position_size s d)) d
              slippage nowMs now ∧
        e.commission = 1/1000 * e.executed_price * e.executed_quantity ∧
        e.executed_quantity =
          ((create_order symbol d (calculate_position_size s d)).quantity : ℚ) ∧
        e.execution_id ≠ none := by
  intro s symbol d broker slippage nowMs now hb hc hpos
  have hnle : ¬ calculate_position_size s d ≤ 0 := not_le.mpr hpos
  refine ⟨simulate_execution
      (create_order symbol d (calculate_position_size s d)) d slippage nowMs now,
    ?_, rfl, ?_, rfl, ?_⟩
  · rcases hb with hb | hb <;>
      simp [execute_trade, hc, hnle, hb, execute_real_broker]
  · simp only [simulate_execution]
    ring
  · simp [simulate_execution]

/-- Witness for C6: the simulation-mode executor at price 100 with the default
risk parameters executes one simulated fill. -/
theorem C6_witness :
    ∃ e : TradeExecution,
      execute_trade {} "AAPL" { symbol := "AAPL", price := 100, volume := 0 }
          (BrokerOutcome.returned none) 0 0 0 =
        (some e, { ({} : ExecutorState) with
          executed_trades := ({} : ExecutorState).executed_trades ++ [e] }) ∧
      e = simulate_execution
            (create_order "AAPL" { symbol := "AAPL", price := 100, volume := 0 }
              (calculate_position_size {}
                { symbol := "AAPL", price := 100, volume := 0 }))
            { symbol := "AAPL", price := 100, volume := 0 } 0 0 0 ∧
      e.commission = 1/1000 * e.executed_price * e.executed_quantity ∧
      e.executed_quantity =
        ((create_order "AAPL" { symbol := "AAPL", price := 100, volume := 0 }
            (calculate_position_size {}
              { symbol := "AAPL", price := 100, volume := 0 })).quantity : ℚ) ∧
      e.execution_id ≠ none :=
  C6_simulated_fill {} "AAPL" _ (BrokerOutcome.returned none) 0 0 0
    (Or.inl rfl) (by norm_num [check_risk_limits])
    (by norm_num [calculate_position_size, intTrunc])

/-- C7 counterexample: `add_conditions` merely extends the list — it does not
reset `completed`/`current_value`.  Adding a condition that arrives with
`completed = true` and a stale `current_value` leaves both fields as they
were, refuting the claim as stated. -/
theorem C7_counterexample :
    ¬ (∀ c ∈ add_conditions ([] : List Condition)
          [{ task_id := "t1", description := "x", indicator := "Price",
             operator := ">", value := 1, completed := true,
             current_value := some 5 }],
        c.completed = false ∧ c.current_value = none) := by
  intro h
  have hm := h
    { task_id := "t1", description := "x", indicator := "Price",
      operator := ">", value := 1, completed := true, current_value := some 5 }
    (by simp [add_conditions])
  simp at hm

/-- C7 (amended): `add_conditions` appends the new conditions unchanged and
leaves every previously registered condition unchanged (in particular no
`satisfied`/`current_value` reset happens there; the source has no
`replace_conditions`); the reset of `satisfied = false`, `current_value = None`
for all conditions is performed by `reset_conditions`. -/
theorem C7_add_appends_reset_resets :
    (∀ old new : List Condition,
      (add_conditions old new).take old.length = old ∧
      (add_conditions old new).drop old.length = new) ∧
    (∀ cs : List Condition,
      (reset_conditions cs).all
        (fun c => !c.completed && c.current_value.isNone) = true) := by
  constructor
  · intro old nw
    exact ⟨List.take_left old nw, List.drop_left old nw⟩
  · intro cs
    simp [reset_conditions, List.all_eq_true]

end Trader
